import Mathlib

/-!
Verification of the edge layer of the Chatiapp backend (`src/src/app.ts`):
IP resolution, rate-limit gating, error classification and serialization,
route registration order, and the shared CORS origin policy.

The wiring file `src/src/app.ts` is the authority.  The error-type module
`src/core/ApiError.ts`, the configuration module and the internals of the
third-party middleware (`express-rate-limit`, `express.json`, Express's
default 404 handler) are not included in the sources; where a definition
has to stand in for them it is modelled from the specification and marked
as such in its doc comment.
-/

namespace Chatiapp

/-- Modelled from the spec: the closed enumeration of error kinds of
`src/core/ApiError.ts` (imported by `app.ts` as `ErrorType` but not
included under `src/`), as listed in the §4.3 taxonomy table. -/
inductive ErrorType
  | BAD_REQUEST
  | UNAUTHORIZED
  | FORBIDDEN
  | NOT_FOUND
  | RATE_LIMIT
  | INTERNAL
deriving DecidableEq, Repr

/-- Modelled from the spec: the §4.3 taxonomy table's `httpStatus` column. -/
def ErrorType.status : ErrorType → Nat
  | .BAD_REQUEST => 400
  | .UNAUTHORIZED => 401
  | .FORBIDDEN => 403
  | .NOT_FOUND => 404
  | .RATE_LIMIT => 429
  | .INTERNAL => 500

/-- Modelled from the spec: the §4.3 taxonomy table's `operational` column. -/
def ErrorType.operational : ErrorType → Bool
  | .INTERNAL => false
  | _ => true

/-- Modelled from the spec: a typed `ApiError` value (`src/core/ApiError.ts`,
not under `src/`): a tagged error carrying its kind, a message, and the
runtime stack string inherited from `Error`. -/
structure ApiError where
  type : ErrorType
  message : String
  stack : String
deriving DecidableEq, Repr

/-- Modelled from the spec: the generic-message `InternalError` constructed
by `app.ts` line 106 for unclassified failures; its message is a fixed
generic string that carries no detail of the original error. -/
def InternalError : ApiError :=
  ⟨.INTERNAL, "Internal error", ""⟩

/-- Modelled from the spec: the `RateLimitError` constructor used by the
limiter's rejection handler (`app.ts` line 43); kind `RATE_LIMIT`. -/
def RateLimitError (message : String) : ApiError :=
  ⟨.RATE_LIMIT, message, ""⟩

/-- The client-visible response shape: HTTP status, the taxonomy kind when
the response went through the serializer (`none` for responses produced
outside the taxonomy, e.g. a raw stack dump or Express's default 404),
and the body message. -/
structure SerializedResponse where
  httpStatus : Nat
  kind : Option ErrorType
  message : String
deriving DecidableEq, Repr

/-- Modelled from the spec: `ApiError.handle(err, res)` of
`src/core/ApiError.ts` — status and message of a typed error are taken
verbatim from the error, the status being the table value for its kind. -/
def ApiError.handle (e : ApiError) : SerializedResponse :=
  ⟨e.type.status, some e.type, e.message⟩

/-- The request fields the error middleware reads (`req.originalUrl`,
`req.method`, `req.ip` in `app.ts` lines 98 and 103). -/
structure ReqInfo where
  method : String
  originalUrl : String
  ip : String
deriving DecidableEq, Repr

/-- An error reaching the error-handling middleware: either a typed
`ApiError` (the `err instanceof ApiError` branch) or an arbitrary thrown
`Error` with only a message and a stack. -/
inductive Err
  | typed (e : ApiError)
  | untyped (message stack : String)
deriving DecidableEq, Repr

/-- An observable action of the error middleware, in order: a
`console.error` log line, or sending a response to the client. -/
inductive Event
  | logLine (s : String)
  | send (r : SerializedResponse)
deriving DecidableEq, Repr

/-- The `console.error` format string of `app.ts` lines 98 and 103:
`500 - message - originalUrl - method - ip` followed by the stack. -/
def internalLogLine (message stack : String) (req : ReqInfo) : String :=
  "500 - " ++ message ++ " - " ++ req.originalUrl ++ " - " ++ req.method ++
    " - " ++ req.ip ++ "\n" ++ stack

/-- The error-handling middleware of `app.ts` lines 93–108, as the ordered
list of its observable actions.  Typed errors are serialized first and, when
of kind `INTERNAL`, logged afterwards; untyped errors are logged first, then
answered with the raw stack in development mode or the generic
`InternalError` otherwise. -/
def errorMiddleware (environment : String) (req : ReqInfo) : Err → List Event
  | .typed e =>
      Event.send (ApiError.handle e) ::
        (if e.type = ErrorType.INTERNAL then
          [Event.logLine (internalLogLine e.message e.stack req)]
        else [])
  | .untyped m st =>
      Event.logLine (internalLogLine m st req) ::
        (if environment = "development" then
          [Event.send ⟨500, none, st⟩]
        else
          [Event.send (ApiError.handle InternalError)])

/-- The first response sent to the client within a list of events. -/
def clientResponse : List Event → Option SerializedResponse
  | [] => none
  | Event.send r :: _ => some r
  | Event.logLine _ :: rest => clientResponse rest

/-- Whether some log line is emitted strictly before the first response. -/
def loggedBeforeResponse : List Event → Bool
  | [] => false
  | Event.logLine _ :: _ => true
  | Event.send _ :: _ => false

/-- The limiter's rejection message built in `app.ts` lines 44–46:
`You exceeded the request limit. Allowed ${max} requests per
${windowMs / 60000} minute.` -/
def limiterMessage (maxR winMs : Nat) : String :=
  "You exceeded the request limit. Allowed " ++ toString maxR ++
    " requests per " ++ toString (winMs / 60000) ++ " minute."

/-- The limiter's `handler` (`app.ts` lines 41–49): the rejection is not
sent directly, it is forwarded as a typed `RateLimitError` to the error
stage via `next(...)`. -/
def limiterHandlerError (maxR winMs : Nat) : Err :=
  Err.typed (RateLimitError (limiterMessage maxR winMs))

/-- C1: for every typed `ApiError`, the error stage sends exactly the
`{httpStatus, kind}` pair of the taxonomy table for its kind together with
the error's own message; every untyped error yields status 500, kind
`INTERNAL`, and the fixed generic message — independent of the original
error's message text — whenever the environment is not `development`. -/
theorem C1_taxonomy_handle (environment : String) (req : ReqInfo) :
    (∀ e : ApiError,
      clientResponse (errorMiddleware environment req (Err.typed e)) =
        some ⟨e.type.status, some e.type, e.message⟩) ∧
    (∀ m st : String, environment ≠ "development" →
      clientResponse (errorMiddleware environment req (Err.untyped m st)) =
        some ⟨500, some ErrorType.INTERNAL, InternalError.message⟩) := by
  constructor
  · intro e
    cases h : decide (e.type = ErrorType.INTERNAL) <;>
      simp_all [errorMiddleware, clientResponse, ApiError.handle]
  · intro m st henv
    simp [errorMiddleware, clientResponse, henv, ApiError.handle,
      InternalError, ErrorType.status]

/-- Witness for C1 at a concrete input: in production mode an untyped
error with message `db timeout` is answered by the generic `INTERNAL`
response. -/
theorem C1_taxonomy_handle_witness :
    clientResponse
        (errorMiddleware "production" ⟨"GET", "/api/chat", "10.0.0.1"⟩
          (Err.untyped "db timeout" "stacktrace")) =
      some ⟨500, some ErrorType.INTERNAL, InternalError.message⟩ :=
  (C1_taxonomy_handle "production" ⟨"GET", "/api/chat", "10.0.0.1"⟩).2
    "db timeout" "stacktrace" (by decide)

/-- C3: a limiter rejection configured with max=2, windowMs=60000 is
forwarded (not sent directly) as a typed `RateLimitError` whose serialized
response has status 429 and kind `RATE_LIMIT`, and whose message mentions
`2 requests per 1 minute`. -/
theorem C3_rate_limit_rejection (environment : String) (req : ReqInfo) :
    clientResponse (errorMiddleware environment req (limiterHandlerError 2 60000)) =
      some ⟨429, some ErrorType.RATE_LIMIT, limiterMessage 2 60000⟩ ∧
    (∃ a b : String,
      limiterMessage 2 60000 = a ++ "2 requests per 1 minute" ++ b) := by
  refine ⟨rfl, "You exceeded the request limit. Allowed ", ".", ?_⟩
  decide

/-- Witness for C3 at a concrete environment and request: the serialized
rejection for max=2, windowMs=60000. -/
theorem C3_rate_limit_rejection_witness :
    clientResponse
        (errorMiddleware "production" ⟨"GET", "/api/chat", "10.0.0.1"⟩
          (limiterHandlerError 2 60000)) =
      some ⟨429, some ErrorType.RATE_LIMIT, limiterMessage 2 60000⟩ :=
  (C3_rate_limit_rejection "production" ⟨"GET", "/api/chat", "10.0.0.1"⟩).1

/-- The limiter's configured window, `app.ts` line 36: `1 * 60 * 1000` ms. -/
def windowMs : Nat := 1 * 60 * 1000

/-- The limiter's configured maximum, `app.ts` line 37: `max: 200`. -/
def maxRequests : Nat := 200

/-- The limiter's header configuration, `app.ts` line 38. -/
def standardHeaders : Bool := true

/-- The limiter's header configuration, `app.ts` line 39. -/
def legacyHeaders : Bool := false

/-- The per-key window record of the fixed-window counter:
`{count, windowStart}`. -/
structure RateWindow where
  count : Nat
  windowStart : Nat
deriving DecidableEq, Repr

/-- Modelled from the spec: one step of the fixed-window counter of the
`express-rate-limit` dependency configured in `app.ts` lines 35–50 (its
store implementation is not under `src/`), following §4.2: if no window
exists for the key, or the current window has expired, or time moved
backwards past the window start, start a fresh window with count 1 and let
the request pass; otherwise increment the count and let the request pass
iff the new count is at most the maximum.  Returns the decision and the
updated window. -/
def rateLimitStep (winMs maxR : Nat) (st : Option RateWindow) (now : Nat) :
    Bool × RateWindow :=
  match st with
  | none => (true, ⟨1, now⟩)
  | some w =>
      if w.windowStart + winMs ≤ now ∨ now < w.windowStart then
        (true, ⟨1, now⟩)
      else
        (decide (w.count + 1 ≤ maxR), ⟨w.count + 1, w.windowStart⟩)

/-- C2: with the configured window of 60000 ms and maximum 200, a request
from a key with no window, or whose window has expired, starts a fresh
window with count 1 and passes; a request inside the current window
increments the count and passes exactly when the new count is at most the
maximum. -/
theorem C2_fixed_window_counter (st : Option RateWindow) (now : Nat) :
    (st = none → rateLimitStep windowMs maxRequests st now = (true, ⟨1, now⟩)) ∧
    (∀ w : RateWindow, st = some w → w.windowStart + windowMs ≤ now →
      rateLimitStep windowMs maxRequests st now = (true, ⟨1, now⟩)) ∧
    (∀ w : RateWindow, st = some w → w.windowStart ≤ now →
      now < w.windowStart + windowMs →
      ((rateLimitStep windowMs maxRequests st now).1 = true ↔
          w.count + 1 ≤ maxRequests) ∧
        (rateLimitStep windowMs maxRequests st now).2 =
          ⟨w.count + 1, w.windowStart⟩) := by
  refine ⟨fun h => by simp [h, rateLimitStep], fun w hw hexp => ?_,
    fun w hw hlo hhi => ?_⟩
  · simp [hw, rateLimitStep, hexp]
  · have hcond : ¬(w.windowStart + windowMs ≤ now ∨ now < w.windowStart) := by
      omega
    simp [hw, rateLimitStep, hcond]

/-- Witness for C2 at concrete inputs: the 200th request inside one window
passes, the 201st is rejected, and a request 60000 ms after the window
start passes again with a fresh count of 1. -/
theorem C2_fixed_window_counter_witness :
    rateLimitStep windowMs maxRequests none 0 = (true, ⟨1, 0⟩) ∧
    (rateLimitStep windowMs maxRequests (some ⟨199, 0⟩) 10).1 = true ∧
    (rateLimitStep windowMs maxRequests (some ⟨200, 0⟩) 10).1 = false ∧
    rateLimitStep windowMs maxRequests (some ⟨200, 0⟩) 60000 = (true, ⟨1, 60000⟩) := by
  refine ⟨(C2_fixed_window_counter none 0).1 rfl, ?_, ?_,
    (C2_fixed_window_counter (some ⟨200, 0⟩) 60000).2.1 ⟨200, 0⟩ rfl (by decide)⟩
  · exact ((C2_fixed_window_counter (some ⟨199, 0⟩) 10).2.2 ⟨199, 0⟩ rfl
      (by decide) (by decide)).1.mpr (by decide)
  · have h := ((C2_fixed_window_counter (some ⟨200, 0⟩) 10).2.2 ⟨200, 0⟩ rfl
      (by decide) (by decide)).1
    revert h
    decide

/-- A CORS origin policy: the allowed origin and whether credentials are
allowed (§3 `OriginPolicy`). -/
structure OriginPolicy where
  allowedOrigin : String
  allowCredentials : Bool
deriving DecidableEq, Repr

/-- The options object passed to the HTTP `cors` middleware in `app.ts`
lines 57–63: `{origin: corsUrl, credentials: true, optionsSuccessStatus: 200}`.
`corsUrl` comes from the configuration module and is left abstract. -/
structure HttpCorsOptions where
  origin : String
  credentials : Bool
  optionsSuccessStatus : Nat
deriving DecidableEq, Repr

/-- The `cors` options of the `SocketServer` constructed in `app.ts`
lines 81–87: `{origin: corsUrl, credentials: true}`, next to
`pingTimeout: 60000`. -/
structure SocketCorsOptions where
  origin : String
  credentials : Bool
deriving DecidableEq, Repr

/-- `app.ts` lines 57–63. -/
def httpCorsOptions (corsUrl : String) : HttpCorsOptions :=
  ⟨corsUrl, true, 200⟩

/-- `app.ts` lines 81–87. -/
def socketCorsOptions (corsUrl : String) : SocketCorsOptions :=
  ⟨corsUrl, true⟩

/-- The socket server's `pingTimeout`, `app.ts` line 82. -/
def socketPingTimeout : Nat := 60000

/-- The origin policy applied by the HTTP CORS layer. -/
def httpOriginPolicy (corsUrl : String) : OriginPolicy :=
  ⟨(httpCorsOptions corsUrl).origin, (httpCorsOptions corsUrl).credentials⟩

/-- The origin policy applied at the realtime handshake. -/
def socketOriginPolicy (corsUrl : String) : OriginPolicy :=
  ⟨(socketCorsOptions corsUrl).origin, (socketCorsOptions corsUrl).credentials⟩

/-- C5: for every configured `corsUrl`, the HTTP CORS layer and the
realtime handshake apply the identical origin policy — the same allowed
origin and credentials allowed in both. -/
theorem C5_origin_policy_identical (corsUrl : String) :
    httpOriginPolicy corsUrl = socketOriginPolicy corsUrl ∧
    (httpOriginPolicy corsUrl).allowCredentials = true ∧
    (socketOriginPolicy corsUrl).allowedOrigin = corsUrl :=
  ⟨rfl, rfl, rfl⟩

/-- Witness for C5 at a concrete configured origin. -/
theorem C5_origin_policy_identical_witness :
    httpOriginPolicy "https://chatiapp.example" =
      socketOriginPolicy "https://chatiapp.example" :=
  (C5_origin_policy_identical "https://chatiapp.example").1

/-- The limiter's `keyGenerator` of `app.ts` line 40:
`requestIp.getClientIp(req) || ""`.  `getClientIp` returns the resolved
address or `null`; the JavaScript `||` replaces `null` (and the empty
string, the only falsy string) by `""`. -/
def keyGenerator : Option String → String
  | none => ""
  | some s => if s == "" then "" else s

/-- C8: the rate-limit key is the resolved client IP string; when IP
resolution yields no address the key is the empty string, so every
unidentifiable client falls into the single shared bucket keyed by `""`;
the generator is a total function. -/
theorem C8_key_generator :
    keyGenerator none = "" ∧ (∀ s : String, keyGenerator (some s) = s) := by
  refine ⟨rfl, fun s => ?_⟩
  by_cases h : s = "" <;> simp [keyGenerator, h]

/-- Witness for C8 at concrete inputs: a resolved address keys its own
bucket, a failed resolution keys the shared empty-string bucket. -/
theorem C8_key_generator_witness :
    keyGenerator (some "10.0.0.1") = "10.0.0.1" ∧ keyGenerator none = "" :=
  ⟨C8_key_generator.2 "10.0.0.1", C8_key_generator.1⟩

/-- The body size limit string passed to both `express.json` and
`express.urlencoded` in `app.ts` lines 55–56. -/
def bodyLimitOption : String := "16kb"

/-- Modelled from the spec: the byte value the body parsers derive from the
`"16kb"` option (the `bytes` library used by `body-parser`, not under
`src/`, reads `kb` as 1024 bytes). -/
def bodyLimitBytes : Nat := 16 * 1024

/-- Modelled from the spec: the body-parsing stage of `express.json` /
`express.urlencoded` (not under `src/`) accepts a body iff its length does
not exceed the configured limit; larger bodies are rejected before any
route handler runs. -/
def bodyAccepted (len : Nat) : Bool :=
  decide (len ≤ bodyLimitBytes)

/-- C10: a JSON or urlencoded body is parsed exactly when it is at most
16kb = 16384 bytes; any larger body is rejected by the body-parsing
stage. -/
theorem C10_body_limit :
    bodyLimitOption = "16kb" ∧ bodyLimitBytes = 16384 ∧
    (∀ len : Nat, bodyAccepted len = true ↔ len ≤ 16384) := by
  refine ⟨rfl, rfl, fun len => ?_⟩
  simp [bodyAccepted, bodyLimitBytes]

/-- Witness for C10 at a concrete body length: a body of exactly 16384
bytes is accepted. -/
theorem C10_body_limit_witness : bodyAccepted 16384 = true :=
  (C10_body_limit.2.2 16384).mpr (by decide)

/-- The handler groups registered in `app.ts`: the root banner route
(line 27), the health probe (line 68), the three delegated routers
(lines 73–75) and static file serving (line 78). -/
inductive RouteGroup
  | root
  | health
  | auth
  | chat
  | messages
  | publicStatic
deriving DecidableEq, Repr

/-- Whether `path` lies under the mount point `pre` (Express prefix
matching), computed on the underlying character lists. -/
def underMount (pre path : String) : Bool :=
  pre.data.isPrefixOf path.data

/-- The route table of `app.ts`: exact paths for the two inline routes,
mount-point prefixes for the delegated routers and the static directory.
No other handler is registered. -/
def matchRoute (path : String) : Option RouteGroup :=
  if path == "/" then some RouteGroup.root
  else if path == "/health" then some RouteGroup.health
  else if underMount "/auth" path then some RouteGroup.auth
  else if underMount "/api/chat" path then some RouteGroup.chat
  else if underMount "/api/messages" path then some RouteGroup.messages
  else if underMount "/public" path then some RouteGroup.publicStatic
  else none

/-- The outcome of dispatching a path: delegation to a registered handler
group, or fall-through past every registered handler. -/
inductive DispatchResult
  | delegated (g : RouteGroup)
  | fallthrough (r : SerializedResponse)
deriving DecidableEq, Repr

/-- Modelled from the spec: dispatching an inbound path over the handlers
registered in `app.ts`.  `app.ts` registers no NOT_FOUND fall-through
middleware, so a path matched by no handler group reaches Express's
default final handler (not under `src/`), which sends status 404 with a
plain text body and no taxonomy kind. -/
def dispatch (path : String) : DispatchResult :=
  match matchRoute path with
  | some g => DispatchResult.delegated g
  | none => DispatchResult.fallthrough ⟨404, none, "Cannot GET " ++ path⟩

/-- Counterexample to C4: the path `/unknown/path` matches no registered
handler group, and the resulting fall-through response has status 404 but
carries no taxonomy kind — in particular its kind is not `NOT_FOUND`,
since `app.ts` registers no NOT_FOUND fall-through error. -/
theorem C4_not_found_counterexample :
    matchRoute "/unknown/path" = none ∧
    dispatch "/unknown/path" =
      DispatchResult.fallthrough ⟨404, none, "Cannot GET /unknown/path"⟩ ∧
    ¬(404, (some ErrorType.NOT_FOUND : Option ErrorType)) =
      (404, (none : Option ErrorType)) := by
  decide

/-- C4 amended: every path matched by no registered handler group receives
status 404, but from Express's default final handler: the response carries
no taxonomy kind (no `NOT_FOUND` `ApiError` is produced, `app.ts`
registering no fall-through error middleware). -/
theorem C4_not_found_amended (path : String) (h : matchRoute path = none) :
    dispatch path = DispatchResult.fallthrough ⟨404, none, "Cannot GET " ++ path⟩ := by
  simp [dispatch, h]

/-- Witness for C4 amended at the concrete path `/unknown/path`. -/
theorem C4_not_found_amended_witness :
    dispatch "/unknown/path" =
      DispatchResult.fallthrough ⟨404, none, "Cannot GET /unknown/path"⟩ :=
  C4_not_found_amended "/unknown/path" (by decide)

/-- The middleware and route registrations of `app.ts` in source order:
the root route (line 27) comes before `requestIp.mw()` (line 32) and the
rate limiter (line 52), which precede the body parsers, CORS, logging,
cookie parsing, the health route and the routers (lines 55–78). -/
inductive Stage
  | rootRoute
  | requestIpMw
  | limiterMw
  | jsonParserMw
  | urlencodedMw
  | corsMw
  | morganMw
  | cookieParserMw
  | healthRoute
  | authRouter
  | chatRouter
  | messagesRouter
  | publicStatic
deriving DecidableEq, Repr

/-- The registration order of `app.ts` lines 27–78. -/
def pipeline : List Stage :=
  [Stage.rootRoute, Stage.requestIpMw, Stage.limiterMw, Stage.jsonParserMw,
   Stage.urlencodedMw, Stage.corsMw, Stage.morganMw, Stage.cookieParserMw,
   Stage.healthRoute, Stage.authRouter, Stage.chatRouter,
   Stage.messagesRouter, Stage.publicStatic]

/-- Whether a stage terminates the chain by answering the given path
itself: the two inline routes answer their exact paths, the routers and
the static server answer paths under their mount points, and the pass-
through middleware never terminates. -/
def terminatesChain (path : String) : Stage → Bool
  | Stage.rootRoute => path == "/"
  | Stage.healthRoute => path == "/health"
  | Stage.authRouter => underMount "/auth" path
  | Stage.chatRouter => underMount "/api/chat" path
  | Stage.messagesRouter => underMount "/api/messages" path
  | Stage.publicStatic => underMount "/public" path
  | _ => false

/-- The stages a request for `path` runs through, in order, stopping at
the first stage that answers it (Express middleware chaining). -/
def runChain (path : String) : List Stage → List Stage
  | [] => []
  | s :: rest =>
      if terminatesChain path s then [s] else s :: runChain path rest

/-- The stages `app.ts` runs for a request to `path`. -/
def stagesRun (path : String) : List Stage :=
  runChain path pipeline

/-- A response to `path` carries the standard rate-limit headers iff the
limiter ran for that request and `standardHeaders` is configured. -/
def hasStdRateLimitHeaders (path : String) : Bool :=
  standardHeaders && decide (Stage.limiterMw ∈ stagesRun path)

/-- A response to `path` carries the legacy rate-limit headers iff the
limiter ran for that request and `legacyHeaders` is configured. -/
def hasLegacyRateLimitHeaders (path : String) : Bool :=
  legacyHeaders && decide (Stage.limiterMw ∈ stagesRun path)

/-- Counterexample to C7: the root liveness route is registered at
`app.ts` line 27, before `app.use(limiter)` at line 52, so a request to
`/` is answered by the root route without ever passing through the
limiter: its response carries no standard rate-limit headers. -/
theorem C7_rate_limit_headers_counterexample :
    stagesRun "/" = [Stage.rootRoute] ∧
    ¬Stage.limiterMw ∈ stagesRun "/" ∧
    hasStdRateLimitHeaders "/" = false := by
  decide

/-- C7 amended: every response to a path other than `/` passes through
the limiter and carries the standard rate-limit headers, and no response
ever carries the legacy header variants; the root liveness route, being
registered before the limiter, is the exception and carries none. -/
theorem C7_rate_limit_headers_amended (path : String) (h : path ≠ "/") :
    hasStdRateLimitHeaders path = true ∧
    hasStdRateLimitHeaders "/" = false ∧
    (∀ p : String, hasLegacyRateLimitHeaders p = false) := by
  have hb : (path == "/") = false := by
    simp [h]
  have hmem : Stage.limiterMw ∈ stagesRun path := by
    simp [stagesRun, runChain, pipeline, terminatesChain, hb]
  refine ⟨?_, by decide, fun p => ?_⟩
  · simp [hasStdRateLimitHeaders, standardHeaders, hmem]
  · simp [hasLegacyRateLimitHeaders, legacyHeaders]

/-- Witness for C7 amended at the concrete path `/health`. -/
theorem C7_rate_limit_headers_amended_witness :
    hasStdRateLimitHeaders "/health" = true :=
  (C7_rate_limit_headers_amended "/health" (by decide)).1

/-- C6: the raw-stack response for an unclassified error is produced
exactly when the environment flag equals `"development"`; in any other
environment, any two unclassified errors receive the same client-visible
response, namely the fixed generic `INTERNAL` serialization, independent
of the errors' messages and stacks. -/
theorem C6_dev_gated_stack (req : ReqInfo) :
    (∀ m st : String,
      clientResponse (errorMiddleware "development" req (Err.untyped m st)) =
        some ⟨500, none, st⟩) ∧
    (∀ environment m st : String, environment ≠ "development" →
      clientResponse (errorMiddleware environment req (Err.untyped m st)) =
        some (ApiError.handle InternalError)) ∧
    (∀ environment m st m' st' : String, environment ≠ "development" →
      clientResponse (errorMiddleware environment req (Err.untyped m st)) =
        clientResponse (errorMiddleware environment req (Err.untyped m' st'))) := by
  refine ⟨fun m st => rfl, fun environment m st h => ?_, fun environment m st m' st' h => ?_⟩
  · simp [errorMiddleware, clientResponse, h]
  · simp [errorMiddleware, clientResponse, h]

/-- Witness for C6 at concrete inputs: in production mode two different
unclassified errors receive the identical generic response, and in
development mode the raw stack is returned. -/
theorem C6_dev_gated_stack_witness :
    clientResponse
        (errorMiddleware "production" ⟨"GET", "/x", "10.0.0.1"⟩
          (Err.untyped "db timeout" "stackA")) =
      clientResponse
        (errorMiddleware "production" ⟨"GET", "/x", "10.0.0.1"⟩
          (Err.untyped "other failure" "stackB")) ∧
    clientResponse
        (errorMiddleware "development" ⟨"GET", "/x", "10.0.0.1"⟩
          (Err.untyped "db timeout" "stackA")) =
      some ⟨500, none, "stackA"⟩ :=
  ⟨(C6_dev_gated_stack ⟨"GET", "/x", "10.0.0.1"⟩).2.2 "production" "db timeout"
      "stackA" "other failure" "stackB" (by decide),
    (C6_dev_gated_stack ⟨"GET", "/x", "10.0.0.1"⟩).1 "db timeout" "stackA"⟩

/-- Counterexample to C9: a typed `ApiError` of kind `INTERNAL` reaching
the middleware is serialized and sent first (`ApiError.handle(err, res)`
at `app.ts` line 95) and only then logged (lines 96–100): no log line is
emitted before the response. -/
theorem C9_log_order_counterexample :
    InternalError.type = ErrorType.INTERNAL ∧
    loggedBeforeResponse
        (errorMiddleware "production" ⟨"GET", "/api/chat", "10.0.0.1"⟩
          (Err.typed InternalError)) = false ∧
    errorMiddleware "production" ⟨"GET", "/api/chat", "10.0.0.1"⟩
        (Err.typed InternalError) =
      [Event.send (ApiError.handle InternalError),
       Event.logLine
         (internalLogLine InternalError.message InternalError.stack
           ⟨"GET", "/api/chat", "10.0.0.1"⟩)] := by
  refine ⟨rfl, rfl, ?_⟩
  simp [errorMiddleware, InternalError]

/-- C9 amended: for unclassified errors (coerced to `INTERNAL`) the full
structured log line — message, stack, request URL, method and client IP —
is emitted before the response is sent; for typed `ApiError`s of kind
`INTERNAL` the same log line is emitted, but only after the response. -/
theorem C9_log_order_amended (environment : String) (req : ReqInfo) :
    (∀ m st : String,
      loggedBeforeResponse (errorMiddleware environment req (Err.untyped m st)) =
        true ∧
      Event.logLine (internalLogLine m st req) ∈
        errorMiddleware environment req (Err.untyped m st)) ∧
    (∀ e : ApiError, e.type = ErrorType.INTERNAL →
      errorMiddleware environment req (Err.typed e) =
        [Event.send (ApiError.handle e),
         Event.logLine (internalLogLine e.message e.stack req)]) := by
  refine ⟨fun m st => ⟨rfl, ?_⟩, fun e he => ?_⟩
  · simp [errorMiddleware, loggedBeforeResponse]
  · simp [errorMiddleware, he]

/-- Witness for C9 amended at a concrete typed `INTERNAL` error. -/
theorem C9_log_order_amended_witness :
    errorMiddleware "production" ⟨"POST", "/api/messages", "10.0.0.1"⟩
        (Err.typed InternalError) =
      [Event.send (ApiError.handle InternalError),
       Event.logLine
         (internalLogLine InternalError.message InternalError.stack
           ⟨"POST", "/api/messages", "10.0.0.1"⟩)] :=
  (C9_log_order_amended "production" ⟨"POST", "/api/messages", "10.0.0.1"⟩).2
    InternalError rfl

end Chatiapp
